import Mathlib

set_option autoImplicit false

/-!
Verification development for the Multi_Tier_GitOps task service.

The Go sources are shallowly embedded:
* Go strings are `List Char` (`GoStr`); `strings.HasPrefix` / `strings.HasSuffix`
  are `List.isPrefixOf` / `List.isSuffixOf`, `strings.Join` is `goJoin`,
  `strings.TrimPrefix(s, "*")` is `trimStar`.
* The CORS middleware (pkg/middleware/cors.go) is the pure function `CORS`
  from the configuration, the request method and the Origin header to the
  set of response headers it writes, the status it writes itself (if any)
  and whether it invokes the wrapped handler.
* The tasks table is a `List Task`; `database/sql` outcomes are explicit
  (`SqlError`, `ExecOutcome`), so that the repository / service / handler
  error classification can be stated for arbitrary storage failures.
-/

/-- A Go string, as its list of characters. -/
abbrev GoStr := List Char

/-- Embed a Lean string literal as a `GoStr`. -/
def gs (s : String) : GoStr := s.toList

/-- `strings.Join(elems, sep)`. -/
def goJoin (elems : List GoStr) (sep : GoStr) : GoStr :=
  List.intercalate sep elems

/-- `strconv.Itoa`. -/
def itoa (n : Int) : GoStr := (toString n).toList

/-- `strings.TrimPrefix(s, "*")`: drop a leading `*` when present. -/
def trimStar (s : GoStr) : GoStr :=
  if List.isPrefixOf (gs "*") s then s.drop 1 else s

/-- `config.CORSConfig` (fields used by the middleware). -/
structure CORSConfig where
  allowedOrigins : List GoStr
  allowedMethods : List GoStr
  allowedHeaders : List GoStr
  exposedHeaders : List GoStr
  allowCredentials : Bool
  maxAge : Int
deriving DecidableEq

/-- Body of the per-entry check inside the loop of `isOriginAllowed`:
`allowed == "*"`, or `allowed == origin`, or `allowed` starts with `*.`
and `origin` ends with `strings.TrimPrefix(allowed, "*")`. -/
def originEntryAllows (origin allowed : GoStr) : Bool :=
  allowed == gs "*" || allowed == origin ||
    (List.isPrefixOf (gs "*.") allowed && List.isSuffixOf (trimStar allowed) origin)

/-- `isOriginAllowed` from pkg/middleware/cors.go: empty origin is refused,
otherwise the allow-list is scanned (the Go loop returns at the first
matching entry; `List.any` is the same decision). -/
def isOriginAllowed (origin : GoStr) (allowedOrigins : List GoStr) : Bool :=
  if origin == [] then false
  else allowedOrigins.any (originEntryAllows origin)

/-- `containsWildcard` from pkg/middleware/cors.go. -/
def containsWildcard (allowedOrigins : List GoStr) : Bool :=
  allowedOrigins.any (fun o => o == gs "*")

/-- The response headers the CORS middleware may `Set`.  The middleware only
ever writes these six fixed header names, each at most once, so a record of
optional values is a faithful image of the header map it produces. -/
structure CORSHeaders where
  allowOrigin : Option GoStr
  allowMethods : Option GoStr
  allowHeaders : Option GoStr
  exposeHeaders : Option GoStr
  allowCredentials : Option GoStr
  maxAge : Option GoStr
deriving DecidableEq

/-- Observable outcome of one pass through the CORS middleware:
the headers written, the status code the middleware itself wrote
(`some 204` on the preflight short-circuit, `none` otherwise), and whether
`next.ServeHTTP` was invoked. -/
structure CORSResult where
  headers : CORSHeaders
  status : Option Nat
  invokesNext : Bool
deriving DecidableEq

/-- Lines 17–43 of the middleware: the `Access-Control-Allow-Origin`
decision followed by the five configuration-driven headers. -/
def corsSetHeaders (cfg : CORSConfig) (origin : GoStr) : CORSHeaders :=
  { allowOrigin :=
      if isOriginAllowed origin cfg.allowedOrigins then some origin
      else if containsWildcard cfg.allowedOrigins then some (gs "*")
      else none
    allowMethods :=
      if cfg.allowedMethods.length > 0 then
        some (goJoin cfg.allowedMethods (gs ", ")) else none
    allowHeaders :=
      if cfg.allowedHeaders.length > 0 then
        some (goJoin cfg.allowedHeaders (gs ", ")) else none
    exposeHeaders :=
      if cfg.exposedHeaders.length > 0 then
        some (goJoin cfg.exposedHeaders (gs ", ")) else none
    allowCredentials := if cfg.allowCredentials then some (gs "true") else none
    maxAge := if cfg.maxAge > 0 then some (itoa cfg.maxAge) else none }

/-- The `CORS` middleware from pkg/middleware/cors.go.  Headers are set
first; when the method is `http.MethodOptions` the middleware writes
`http.StatusNoContent` (204) and returns without calling `next`. -/
def CORS (cfg : CORSConfig) (method : GoStr) (origin : GoStr) : CORSResult :=
  let headers := corsSetHeaders cfg origin
  if method == gs "OPTIONS" then
    { headers := headers, status := some 204, invokesNext := false }
  else
    { headers := headers, status := none, invokesNext := true }

/-- Spec-side reading of one allow-list entry matching an origin: the entry
equals the origin exactly, or it is the literal wildcard, or it has the form
`*.suffix` and the origin ends with `.suffix`. -/
def specEntryMatches (origin entry : GoStr) : Prop :=
  entry = origin ∨ entry = gs "*" ∨
    (entry.take 2 = gs "*." ∧ List.isSuffixOf ('.' :: entry.drop 2) origin = true)

instance (origin entry : GoStr) : Decidable (specEntryMatches origin entry) := by
  unfold specEntryMatches; infer_instance

/-! ## Task domain model (internal/model/task.go)

The entity types live in the namespace `model`, mirroring the Go package
(`Task` alone would collide with a core Lean type). -/

/-- Timestamps (`time.Time`), abstracted to a discrete clock. -/
abbrev Time := Nat

namespace model

/-- `model.Task`. -/
structure Task where
  id : GoStr
  title : GoStr
  description : GoStr
  status : GoStr
  createdAt : Time
  updatedAt : Time
deriving DecidableEq

/-- `model.CreateTaskRequest`. -/
structure CreateTaskRequest where
  title : GoStr
  description : GoStr
deriving DecidableEq

/-- `model.UpdateTaskRequest`: three independently nullable fields. -/
structure UpdateTaskRequest where
  title : Option GoStr
  description : Option GoStr
  status : Option GoStr
deriving DecidableEq

/-- `model.TaskResponse`. -/
structure TaskResponse where
  id : GoStr
  title : GoStr
  description : GoStr
  status : GoStr
  createdAt : Time
  updatedAt : Time
deriving DecidableEq

/-- `Task.ToResponse`. -/
def Task.toResponse (t : Task) : TaskResponse :=
  ⟨t.id, t.title, t.description, t.status, t.createdAt, t.updatedAt⟩

end model

/-! ## Storage outcomes and error values -/

/-- An error coming back from `database/sql`: either `sql.ErrNoRows` or any
other driver/connection error, carrying its text. -/
inductive SqlError where
  | errNoRows
  | other (msg : GoStr)
deriving DecidableEq

/-- `sql.ErrNoRows.Error()` is the fixed text below. -/
def SqlError.text : SqlError → GoStr
  | .errNoRows => gs "sql: no rows in result set"
  | .other m => m

/-- Outcome of `ExecContext` + `RowsAffected` in `TaskRepository.Delete`. -/
inductive ExecOutcome where
  | ok (rowsAffected : Nat)
  | execErr (msg : GoStr)
  | rowsAffectedErr (msg : GoStr)
deriving DecidableEq

/-- Errors returned by the repository layer: the sentinel
`repository.ErrTaskNotFound`, or a `fmt.Errorf`-wrapped storage error
(which does not satisfy `errors.Is(·, ErrTaskNotFound)`). -/
inductive RepoError where
  | errTaskNotFound
  | wrapped (msg : GoStr)
deriving DecidableEq

/-- Errors returned by the service layer: an error wrapping the sentinel
`service.ErrValidation` (carrying the rendered validation message), the
sentinel `service.ErrTaskNotFound`, or a wrapped storage error matching
neither sentinel. -/
inductive SvcError where
  | validation (msg : GoStr)
  | errTaskNotFound
  | wrapped (msg : GoStr)
deriving DecidableEq

/-! ## HTTP response helpers (pkg/response.go) -/

/-- `ServiceInfo.Details` values (`map[string]any`): the handler only ever
stores strings and integers there. -/
inductive DetailValue where
  | str (s : GoStr)
  | int (n : Int)
deriving DecidableEq

/-- `handler.ServiceInfo`. -/
structure ServiceInfo where
  status : GoStr
  message : GoStr
  details : List (GoStr × DetailValue)
deriving DecidableEq

/-- `handler.HealthResponse`. -/
structure HealthResponse where
  status : GoStr
  services : List (GoStr × ServiceInfo)
deriving DecidableEq

/-- The typed payload handed to `pkg.WriteJSON` (its `data any` argument).
`jsonString` is a bare Go string passed as the payload, which the JSON
encoder would serialize as a JSON string, not an object. -/
inductive ResponseBody where
  | empty
  | errorObj (msg : GoStr)
  | task (t : model.TaskResponse)
  | taskList (ts : List model.TaskResponse)
  | health (h : HealthResponse)
  | jsonString (s : GoStr)
deriving DecidableEq

/-- What a handler writes: status code and payload. -/
structure HTTPResponse where
  status : Nat
  body : ResponseBody
deriving DecidableEq

/-- `pkg.WriteJSON`. -/
def pkgWriteJSON (statusCode : Nat) (data : ResponseBody) : HTTPResponse :=
  ⟨statusCode, data⟩

/-- `pkg.JSONSuccess` (200). -/
def pkgJSONSuccess (data : ResponseBody) : HTTPResponse := pkgWriteJSON 200 data

/-- `pkg.Created` (201). -/
def pkgCreated (data : ResponseBody) : HTTPResponse := pkgWriteJSON 201 data

/-- `pkg.NoContent` (204, no body). -/
def pkgNoContent : HTTPResponse := ⟨204, .empty⟩

/-- `pkg.BadRequest` (400, `ErrorResponse`). -/
def pkgBadRequest (message : GoStr) : HTTPResponse :=
  pkgWriteJSON 400 (.errorObj message)

/-- `pkg.NotFound` (404, `ErrorResponse`). -/
def pkgNotFound (message : GoStr) : HTTPResponse :=
  pkgWriteJSON 404 (.errorObj message)

/-- `pkg.InternalError` (500, `ErrorResponse`). -/
def pkgInternalError (message : GoStr) : HTTPResponse :=
  pkgWriteJSON 500 (.errorObj message)

/-- `pkg.ServiceUnavailable` (503, arbitrary payload). -/
def pkgServiceUnavailable (data : ResponseBody) : HTTPResponse :=
  pkgWriteJSON 503 data


/-! ## Validation engine

The `go-playground/validator` tags declared on the request structs in
internal/model/task.go, evaluated with the library's documented semantics:
fields are checked in declared order; for each field the tags run in order
and the first failing tag yields that field's single `FieldError`;
`omitempty` skips the remaining tags of a field whose value is nil or the
empty string.  `e.Field()`, `e.Tag()`, `e.Param()` are recorded per error. -/

/-- One `validator.FieldError`, as consumed by `formatValidationErrors`. -/
structure FieldError where
  field : GoStr
  tag : GoStr
  param : GoStr
deriving DecidableEq

/-- Validation of `model.CreateTaskRequest`:
`Title` tagged `required,min=1,max=255`, `Description` tagged `max=1000`. -/
def validateCreateTaskRequest (req : model.CreateTaskRequest) : List FieldError :=
  (if req.title = [] then [⟨gs "Title", gs "required", []⟩]
   else if req.title.length < 1 then [⟨gs "Title", gs "min", gs "1"⟩]
   else if req.title.length > 255 then [⟨gs "Title", gs "max", gs "255"⟩]
   else [])
  ++ (if req.description.length > 1000 then [⟨gs "Description", gs "max", gs "1000"⟩]
      else [])

/-- Validation of `model.UpdateTaskRequest`:
`Title` tagged `omitempty,min=1,max=255`, `Description` tagged
`omitempty,max=1000`, `Status` tagged
`omitempty,oneof=pending in_progress completed`. -/
def validateUpdateTaskRequest (req : model.UpdateTaskRequest) : List FieldError :=
  (match req.title with
   | none => []
   | some t =>
     if t = [] then []
     else if t.length < 1 then [⟨gs "Title", gs "min", gs "1"⟩]
     else if t.length > 255 then [⟨gs "Title", gs "max", gs "255"⟩]
     else [])
  ++ (match req.description with
      | none => []
      | some d =>
        if d = [] then []
        else if d.length > 1000 then [⟨gs "Description", gs "max", gs "1000"⟩]
        else [])
  ++ (match req.status with
      | none => []
      | some s =>
        if s = [] then []
        else if s = gs "pending" ∨ s = gs "in_progress" ∨ s = gs "completed" then []
        else [⟨gs "Status", gs "oneof", gs "pending in_progress completed"⟩])

/-- The per-error `switch e.Tag()` inside `formatValidationErrors`
(service layer, internal/service/tasks.go). -/
def renderFieldError (e : FieldError) : GoStr :=
  if e.tag = gs "required" then e.field ++ gs " is required"
  else if e.tag = gs "min" then
    e.field ++ gs " must be at least " ++ e.param ++ gs " characters"
  else if e.tag = gs "max" then
    e.field ++ gs " must be at most " ++ e.param ++ gs " characters"
  else if e.tag = gs "oneof" then
    e.field ++ gs " must be one of: " ++ e.param
  else e.field ++ gs " is invalid"

/-- `formatValidationErrors`: renders every error but returns only
`messages[0]`.  The service only calls it when validation has failed, so
the input list is never empty there; on an empty list the Go function
falls back to `err.Error()`, modelled as the empty string. -/
def formatValidationErrors (errs : List FieldError) : GoStr :=
  match errs.map renderFieldError with
  | [] => []
  | m :: _ => m

/-! ## Repository layer (internal/repository/tasks.go) -/

/-- The tasks table. -/
abbrev Store := List model.Task

/-- `QueryRowContext(...).Scan` for the `GetByID` select against a healthy
database: the row with the given id, or `sql.ErrNoRows`. -/
def dbQueryTask (store : Store) (id : GoStr) : Except SqlError model.Task :=
  match store.find? (fun t => t.id == id) with
  | some t => .ok t
  | none => .error .errNoRows

/-- `TaskRepository.GetByID`'s error classification: `sql.ErrNoRows`
becomes `ErrTaskNotFound`; any other error is wrapped with
`failed to get task: %w`. -/
def repoClassifyGet (outcome : Except SqlError model.Task) : Except RepoError model.Task :=
  match outcome with
  | .ok t => .ok t
  | .error .errNoRows => .error .errTaskNotFound
  | .error (.other m) => .error (.wrapped (gs "failed to get task: " ++ m))

/-- `TaskRepository.GetByID` over a healthy database. -/
def repoGetByID (store : Store) (id : GoStr) : Except RepoError model.Task :=
  repoClassifyGet (dbQueryTask store id)

/-- The in-place merge in `TaskRepository.Update` (lines 130–139):
each non-nil request field overwrites the fetched task's field. -/
def mergeTask (currentTask : model.Task) (updates : model.UpdateTaskRequest) : model.Task :=
  { currentTask with
    title := match updates.title with
             | some v => v
             | none => currentTask.title
    description := match updates.description with
                   | some v => v
                   | none => currentTask.description
    status := match updates.status with
              | some v => v
              | none => currentTask.status }

/-- The complete row passed to the UPDATE statement: the merged task with
`updated_at` stamped `time.Now()` (`created_at` is not in the SET list). -/
def writtenRow (currentTask : model.Task) (updates : model.UpdateTaskRequest) (now : Time) : model.Task :=
  { mergeTask currentTask updates with updatedAt := now }

/-- `TaskRepository.Update` with the two storage interactions abstracted:
`fetch` is the outcome of the inner `GetByID` query and `write` is the
outcome of the UPDATE ... RETURNING scan, given the full row sent to it.
A fetch failure is returned as classified by `GetByID`; a write failure of
any kind is wrapped with `failed to update task: %w`. -/
def repoUpdateRun (fetch : Except SqlError model.Task) (updates : model.UpdateTaskRequest)
    (now : Time) (write : model.Task → Except SqlError model.Task) : Except RepoError model.Task :=
  match repoClassifyGet fetch with
  | .error e => .error e
  | .ok currentTask =>
    match write (writtenRow currentTask updates now) with
    | .ok updatedTask => .ok updatedTask
    | .error e => .error (.wrapped (gs "failed to update task: " ++ e.text))

/-- `TaskRepository.Update` over a healthy database: the fetch reads the
stored row, the write replaces it and RETURNING echoes the written row. -/
def repoUpdateStore (store : Store) (now : Time) (id : GoStr)
    (updates : model.UpdateTaskRequest) : Except RepoError (model.Task × Store) :=
  match repoClassifyGet (dbQueryTask store id) with
  | .error e => .error e
  | .ok currentTask =>
    let row := writtenRow currentTask updates now
    .ok (row, store.map (fun t => if t.id == id then row else t))

/-- `TaskRepository.Delete`: an `ExecContext` error or a `RowsAffected`
error is wrapped; zero rows affected becomes `ErrTaskNotFound`. -/
def repoDelete (eo : ExecOutcome) : Except RepoError Unit :=
  match eo with
  | .execErr m => .error (.wrapped (gs "failed to delete task: " ++ m))
  | .rowsAffectedErr m => .error (.wrapped (gs "failed to get rows affected: " ++ m))
  | .ok 0 => .error .errTaskNotFound
  | .ok _ => .ok ()

/-- `TaskRepository.Create` over a healthy database: the INSERT sends
title, description and the literal `'pending'`; the schema (migration
000001) assigns `id` (`gen_random_uuid()`) and both timestamps via
`DEFAULT NOW()`, which evaluates once per statement, so `created_at` and
`updated_at` receive the same value; RETURNING echoes the new row. -/
def repoCreateStore (genId : GoStr) (now : Time) (task : model.Task) (store : Store) :
    model.Task × Store :=
  let createdTask : model.Task :=
    { id := genId, title := task.title, description := task.description,
      status := gs "pending", createdAt := now, updatedAt := now }
  (createdTask, store ++ [createdTask])

/-! ## Service layer (internal/service/tasks.go) -/

/-- `TaskService.Create`, threading the tasks table to make storage
side effects observable.  Validation runs first; on failure the service
returns the `ErrValidation`-wrapped message and `repo.Create` is never
called (the table is returned unchanged).  On success the service builds
a `Task` holding only Title and Description (all other fields at their
Go zero values) and delegates to the repository. -/
def svcCreate (genId : GoStr) (now : Time) (req : model.CreateTaskRequest)
    (store : Store) : Except SvcError model.TaskResponse × Store :=
  match validateCreateTaskRequest req with
  | e :: es => (.error (.validation (formatValidationErrors (e :: es))), store)
  | [] =>
    let task : model.Task :=
      { id := [], title := req.title, description := req.description,
        status := [], createdAt := 0, updatedAt := 0 }
    let result := repoCreateStore genId now task store
    (.ok result.1.toResponse, result.2)

/-- `TaskService.GetByID`'s translation of the repository result:
`repository.ErrTaskNotFound` becomes `service.ErrTaskNotFound`, anything
else is wrapped with `failed to get task: %w`. -/
def svcGetByID (repoResult : Except RepoError model.Task) :
    Except SvcError model.TaskResponse :=
  match repoResult with
  | .ok t => .ok t.toResponse
  | .error .errTaskNotFound => .error .errTaskNotFound
  | .error (.wrapped m) => .error (.wrapped (gs "failed to get task: " ++ m))

/-- `TaskService.Update`: validate first (returning the
`ErrValidation`-wrapped message on failure, without consulting the
repository result), then translate the repository result the same way as
`GetByID` but wrapping with `failed to update task: %w`. -/
def svcUpdate (req : model.UpdateTaskRequest)
    (repoResult : Except RepoError model.Task) :
    Except SvcError model.TaskResponse :=
  match validateUpdateTaskRequest req with
  | e :: es => .error (.validation (formatValidationErrors (e :: es)))
  | [] =>
    match repoResult with
    | .ok t => .ok t.toResponse
    | .error .errTaskNotFound => .error .errTaskNotFound
    | .error (.wrapped m) => .error (.wrapped (gs "failed to update task: " ++ m))

/-- `TaskService.Delete`: `repository.ErrTaskNotFound` becomes
`service.ErrTaskNotFound`, anything else is wrapped with
`failed to delete task: %w`. -/
def svcDelete (repoResult : Except RepoError Unit) : Except SvcError Unit :=
  match repoResult with
  | .ok _ => .ok ()
  | .error .errTaskNotFound => .error .errTaskNotFound
  | .error (.wrapped m) => .error (.wrapped (gs "failed to delete task: " ++ m))

/-! ## HTTP handlers (internal/handler/task_handler.go)

Each handler is modelled after the JSON body has been decoded; the
storage interaction is passed in as the explicit outcome it produced. -/

/-- `SvcError.text` is `err.Error()` for the service errors the handlers
print back (only the validation case reaches a response body). -/
def SvcError.text : SvcError → GoStr
  | .validation m => gs "validation error: " ++ m
  | .errTaskNotFound => gs "task not found"
  | .wrapped m => m

/-- `TaskHandler.Create` (POST /tasks) composed with the service over a
healthy database. -/
def handlerCreate (genId : GoStr) (now : Time) (req : model.CreateTaskRequest)
    (store : Store) : HTTPResponse × Store :=
  match svcCreate genId now req store with
  | (.ok task, store') => (pkgCreated (.task task), store')
  | (.error (.validation m), store') =>
      (pkgBadRequest (SvcError.validation m).text, store')
  | (.error _, store') => (pkgInternalError (gs "Failed to create task"), store')

/-- `TaskHandler.GetByID` (GET /tasks/id) with the SELECT outcome
explicit: empty id short-circuits to 400; `service.ErrTaskNotFound` maps
to 404 with body `Task not found`; any other failure maps to 500 with the
generic message. -/
def handlerGetByID (id : GoStr) (queryOutcome : Except SqlError model.Task) :
    HTTPResponse :=
  if id == [] then pkgBadRequest (gs "Task ID is required")
  else
    match svcGetByID (repoClassifyGet queryOutcome) with
    | .ok task => pkgJSONSuccess (.task task)
    | .error .errTaskNotFound => pkgNotFound (gs "Task not found")
    | .error _ => pkgInternalError (gs "Failed to retrieve task")

/-- `TaskHandler.Update` (PUT /tasks/id) with the two storage
interactions of `TaskRepository.Update` explicit. -/
def handlerUpdate (id : GoStr) (req : model.UpdateTaskRequest)
    (fetch : Except SqlError model.Task) (now : Time)
    (write : model.Task → Except SqlError model.Task) : HTTPResponse :=
  if id == [] then pkgBadRequest (gs "Task ID is required")
  else
    match svcUpdate req (repoUpdateRun fetch req now write) with
    | .ok task => pkgJSONSuccess (.task task)
    | .error (.validation m) => pkgBadRequest (SvcError.validation m).text
    | .error .errTaskNotFound => pkgNotFound (gs "Task not found")
    | .error (.wrapped _) => pkgInternalError (gs "Failed to update task")

/-- `TaskHandler.Delete` (DELETE /tasks/id) with the DELETE statement
outcome explicit. -/
def handlerDelete (id : GoStr) (eo : ExecOutcome) : HTTPResponse :=
  if id == [] then pkgBadRequest (gs "Task ID is required")
  else
    match svcDelete (repoDelete eo) with
    | .ok _ => pkgNoContent
    | .error .errTaskNotFound => pkgNotFound (gs "Task not found")
    | .error _ => pkgInternalError (gs "Failed to delete task")

/-! ## Health endpoint (internal/handler/router.go) -/

/-- `sql.DBStats`, as read by `checkDatabase`. -/
structure DBStats where
  openConnections : Int
  inUse : Int
  idle : Int
  maxOpen : Int
  waitCount : Int
  waitDuration : GoStr
deriving DecidableEq

/-- `HealthHandler.checkDatabase`: a ping failure yields the unhealthy
`ServiceInfo` with the error text in the details; success yields the
healthy one with the pool statistics. -/
def checkDatabase (pingErr : Option GoStr) (stats : DBStats) : ServiceInfo :=
  match pingErr with
  | some m =>
    { status := gs "unhealthy", message := gs "Failed to ping database",
      details := [(gs "error", .str m)] }
  | none =>
    { status := gs "healthy", message := gs "Database connection is active",
      details :=
        [(gs "open_connections", .int stats.openConnections),
         (gs "in_use", .int stats.inUse),
         (gs "idle", .int stats.idle),
         (gs "max_open", .int stats.maxOpen),
         (gs "wait_count", .int stats.waitCount),
         (gs "wait_duration", .str stats.waitDuration)] }

/-- `HealthHandler.healthCheckHandler` (GET /health).  The aggregate
`HealthResponse` is built and, when the database is unhealthy, its status
is set to `unhealthy` — but the code then responds with
`pkg.ServiceUnavailable(w, "Service unhealthy")`, i.e. a bare string
payload; the mutated `healthResp` is discarded on that path. -/
def healthCheckHandler (pingErr : Option GoStr) (stats : DBStats) : HTTPResponse :=
  let dbStatus := checkDatabase pingErr stats
  let healthResp : HealthResponse :=
    { status := gs "healthy", services := [(gs "database", dbStatus)] }
  if dbStatus.status = gs "unhealthy" then
    pkgServiceUnavailable (.jsonString (gs "Service unhealthy"))
  else
    pkgJSONSuccess (.health healthResp)

/-- Spec-side classifier: is a response payload the aggregate health
payload shape? -/
def isHealthPayload : ResponseBody → Bool
  | .health _ => true
  | _ => false

/-- Spec-side enumeration of the five reason shapes of §4.1, relative to
the constraint parameter. -/
def reasonShapes (reason param : GoStr) : Prop :=
  reason = gs "is required" ∨
  reason = gs "must be at least " ++ param ++ gs " characters" ∨
  reason = gs "must be at most " ++ param ++ gs " characters" ∨
  reason = gs "must be one of: " ++ param ∨
  reason = gs "is invalid"

/-! ## Lemmas about the origin decision -/

theorem gs_star_eq : gs "*" = ['*'] := rfl

theorem gs_star_dot_eq : gs "*." = ['*', '.'] := rfl

/-- `strings.TrimPrefix` on an entry of the form `*.suffix` leaves
`.suffix`. -/
theorem trimStar_star_dot (rest : GoStr) :
    trimStar ('*' :: '.' :: rest) = '.' :: rest := by
  simp [trimStar, gs_star_eq, List.isPrefixOf]

/-- The wildcard-subdomain leg of the loop body agrees with the spec-side
`*.suffix` reading: the entry starts with `*.` and the origin ends with
`.` followed by the rest of the entry. -/
theorem star_dot_clause (origin entry : GoStr) :
    (List.isPrefixOf (gs "*.") entry = true ∧
      List.isSuffixOf (trimStar entry) origin = true) ↔
    (entry.take 2 = gs "*." ∧ List.isSuffixOf ('.' :: entry.drop 2) origin = true) := by
  rw [gs_star_dot_eq]
  constructor
  · rintro ⟨hp, hs⟩
    rw [List.isPrefixOf_iff_prefix, List.prefix_iff_eq_take] at hp
    have hshape : entry = '*' :: '.' :: entry.drop 2 := by
      conv_lhs => rw [← List.take_append_drop 2 entry]
      rw [show List.take 2 entry = ['*', '.'] from hp.symm]
      rfl
    obtain ⟨rest, hrest⟩ : ∃ rest, entry = '*' :: '.' :: rest := ⟨_, hshape⟩
    subst hrest
    rw [trimStar_star_dot] at hs
    exact ⟨rfl, hs⟩
  · rintro ⟨ht, hs⟩
    have hshape : entry = '*' :: '.' :: entry.drop 2 := by
      conv_lhs => rw [← List.take_append_drop 2 entry]
      rw [ht]
      rfl
    obtain ⟨rest, hrest⟩ : ∃ rest, entry = '*' :: '.' :: rest := ⟨_, hshape⟩
    subst hrest
    refine ⟨?_, ?_⟩
    · rw [List.isPrefixOf_iff_prefix]
      exact ⟨rest, rfl⟩
    · rw [trimStar_star_dot]
      exact hs

/-- The loop body of `isOriginAllowed` decides exactly the spec-side
match relation. -/
theorem originEntryAllows_iff (origin entry : GoStr) :
    originEntryAllows origin entry = true ↔ specEntryMatches origin entry := by
  unfold originEntryAllows specEntryMatches
  simp only [Bool.or_eq_true, Bool.and_eq_true, beq_iff_eq]
  rw [← star_dot_clause origin entry]
  tauto

/-- For a non-empty origin, `isOriginAllowed` holds exactly when some
allow-list entry matches in the spec-side sense. -/
theorem isOriginAllowed_iff (origin : GoStr) (l : List GoStr) (h : origin ≠ []) :
    isOriginAllowed origin l = true ↔ ∃ e ∈ l, specEntryMatches origin e := by
  unfold isOriginAllowed
  have hb : (origin == []) = false := beq_eq_false_iff_ne.mpr h
  rw [hb]
  simp only [Bool.false_eq_true, if_false, List.any_eq_true]
  constructor
  · rintro ⟨e, he, ha⟩
    exact ⟨e, he, (originEntryAllows_iff origin e).mp ha⟩
  · rintro ⟨e, he, hm⟩
    exact ⟨e, he, (originEntryAllows_iff origin e).mpr hm⟩

/-- `containsWildcard` holds exactly when the literal `*` is an entry. -/
theorem containsWildcard_iff (l : List GoStr) :
    containsWildcard l = true ↔ gs "*" ∈ l := by
  unfold containsWildcard
  rw [List.any_eq_true]
  constructor
  · rintro ⟨o, ho, he⟩
    rw [beq_iff_eq] at he
    exact he ▸ ho
  · intro hm
    exact ⟨gs "*", hm, beq_iff_eq.mpr rfl⟩

/-- The headers written do not depend on the request method. -/
theorem CORS_headers_eq (cfg : CORSConfig) (method origin : GoStr) :
    (CORS cfg method origin).headers = corsSetHeaders cfg origin := by
  unfold CORS
  split <;> rfl

/-! ## Claim theorems: CORS middleware -/

/-- Claim C1: for a request with a non-empty Origin header, if some
allow-list entry matches the origin (exact equality, the literal `*`, or
a `*.suffix` entry whose `.suffix` ends the origin) the
Access-Control-Allow-Origin header echoes the literal origin; if no entry
matched but the list contains the literal `*` the header is `*`;
otherwise no such header is emitted. -/
theorem claim_c1_origin_decision (cfg : CORSConfig) (method origin : GoStr)
    (h : origin ≠ []) :
    ((∃ e ∈ cfg.allowedOrigins, specEntryMatches origin e) →
      (CORS cfg method origin).headers.allowOrigin = some origin) ∧
    ((¬ ∃ e ∈ cfg.allowedOrigins, specEntryMatches origin e) →
      gs "*" ∈ cfg.allowedOrigins →
      (CORS cfg method origin).headers.allowOrigin = some (gs "*")) ∧
    ((¬ ∃ e ∈ cfg.allowedOrigins, specEntryMatches origin e) →
      gs "*" ∉ cfg.allowedOrigins →
      (CORS cfg method origin).headers.allowOrigin = none) := by
  have hh : (CORS cfg method origin).headers.allowOrigin =
      (if isOriginAllowed origin cfg.allowedOrigins then some origin
       else if containsWildcard cfg.allowedOrigins then some (gs "*")
       else none) := by
    rw [CORS_headers_eq]
    rfl
  refine ⟨?_, ?_, ?_⟩
  · intro hex
    rw [hh, if_pos ((isOriginAllowed_iff origin _ h).mpr hex)]
  · intro hnex hmem
    exact absurd ⟨gs "*", hmem, Or.inr (Or.inl rfl)⟩ hnex
  · intro hnex hnmem
    have h1 : ¬ (isOriginAllowed origin cfg.allowedOrigins = true) :=
      fun hx => hnex ((isOriginAllowed_iff origin _ h).mp hx)
    have h2 : ¬ (containsWildcard cfg.allowedOrigins = true) :=
      fun hx => hnmem ((containsWildcard_iff _).mp hx)
    rw [hh, if_neg h1, if_neg h2]

/-- Witness for C1 at the origin `https://app.example.com` against the
allow-list entry `*.example.com`: the origin is echoed verbatim. -/
theorem claim_c1_origin_decision_witness :
    (CORS ⟨[gs "*.example.com"], [], [], [], false, 0⟩ (gs "GET")
        (gs "https://app.example.com")).headers.allowOrigin =
      some (gs "https://app.example.com") := by
  have h := claim_c1_origin_decision ⟨[gs "*.example.com"], [], [], [], false, 0⟩
      (gs "GET") (gs "https://app.example.com") (by decide)
  exact h.1 (by decide)

/-- Counterexample to claim C2 as stated: with an empty Origin header and
the allow-list `["*"]` the middleware does emit
Access-Control-Allow-Origin, with value `*` (the `containsWildcard`
fallback branch runs even when the origin is empty). -/
theorem claim_c2_counterexample :
    (CORS ⟨[gs "*"], [], [], [], false, 0⟩ (gs "GET") []).headers.allowOrigin =
      some (gs "*") := by decide

/-- Claim C2, amended: for an empty Origin header the origin is never
allowed (so it is never echoed), but when the allow-list contains the
literal `*` the header is emitted with value `*`; with no literal `*`
entry no Access-Control-Allow-Origin header is emitted. -/
theorem claim_c2_amended (cfg : CORSConfig) (method : GoStr) :
    (CORS cfg method []).headers.allowOrigin =
      if gs "*" ∈ cfg.allowedOrigins then some (gs "*") else none := by
  have hh : (CORS cfg method []).headers.allowOrigin =
      (if isOriginAllowed [] cfg.allowedOrigins then some []
       else if containsWildcard cfg.allowedOrigins then some (gs "*")
       else none) := by
    rw [CORS_headers_eq]
    rfl
  have hfalse : isOriginAllowed [] cfg.allowedOrigins = false := rfl
  rw [hh, hfalse]
  simp only [Bool.false_eq_true, if_false]
  by_cases hm : gs "*" ∈ cfg.allowedOrigins
  · rw [if_pos ((containsWildcard_iff _).mpr hm), if_pos hm]
  · have hcw : ¬ (containsWildcard cfg.allowedOrigins = true) :=
      fun hx => hm ((containsWildcard_iff _).mp hx)
    rw [if_neg hcw, if_neg hm]

/-- Claim C9: on an OPTIONS request the middleware emits the decided
origin header plus the configured allowed-methods, allowed-headers,
exposed-headers, credentials flag and max-age (each only when configured
non-empty / set / positive), writes the no-body success status 204, and
never invokes the wrapped handler chain. -/
theorem claim_c9_preflight (cfg : CORSConfig) (origin : GoStr) :
    (CORS cfg (gs "OPTIONS") origin).status = some 204 ∧
    (CORS cfg (gs "OPTIONS") origin).invokesNext = false ∧
    (CORS cfg (gs "OPTIONS") origin).headers.allowOrigin =
      (if isOriginAllowed origin cfg.allowedOrigins then some origin
       else if containsWildcard cfg.allowedOrigins then some (gs "*")
       else none) ∧
    (CORS cfg (gs "OPTIONS") origin).headers.allowMethods =
      (if cfg.allowedMethods.length > 0 then
        some (goJoin cfg.allowedMethods (gs ", ")) else none) ∧
    (CORS cfg (gs "OPTIONS") origin).headers.allowHeaders =
      (if cfg.allowedHeaders.length > 0 then
        some (goJoin cfg.allowedHeaders (gs ", ")) else none) ∧
    (CORS cfg (gs "OPTIONS") origin).headers.exposeHeaders =
      (if cfg.exposedHeaders.length > 0 then
        some (goJoin cfg.exposedHeaders (gs ", ")) else none) ∧
    (CORS cfg (gs "OPTIONS") origin).headers.allowCredentials =
      (if cfg.allowCredentials then some (gs "true") else none) ∧
    (CORS cfg (gs "OPTIONS") origin).headers.maxAge =
      (if cfg.maxAge > 0 then some (itoa cfg.maxAge) else none) := by
  have hck : CORS cfg (gs "OPTIONS") origin =
      ⟨corsSetHeaders cfg origin, some 204, false⟩ := by
    unfold CORS
    rfl
  refine ⟨?_, ?_, ?_, ?_, ?_, ?_, ?_, ?_⟩ <;> rw [hck] <;> rfl

/-- Claim C10: for every request — any method, any origin, including
denied or absent origins — the five configuration-driven CORS headers
are emitted exactly when configured (lists non-empty, flag set, max-age
positive). -/
theorem claim_c10_config_headers (cfg : CORSConfig) (method origin : GoStr) :
    ((CORS cfg method origin).headers.allowMethods =
      if cfg.allowedMethods.length > 0 then
        some (goJoin cfg.allowedMethods (gs ", ")) else none) ∧
    ((CORS cfg method origin).headers.allowHeaders =
      if cfg.allowedHeaders.length > 0 then
        some (goJoin cfg.allowedHeaders (gs ", ")) else none) ∧
    ((CORS cfg method origin).headers.exposeHeaders =
      if cfg.exposedHeaders.length > 0 then
        some (goJoin cfg.exposedHeaders (gs ", ")) else none) ∧
    ((CORS cfg method origin).headers.allowCredentials =
      if cfg.allowCredentials then some (gs "true") else none) ∧
    ((CORS cfg method origin).headers.maxAge =
      if cfg.maxAge > 0 then some (itoa cfg.maxAge) else none) := by
  refine ⟨?_, ?_, ?_, ?_, ?_⟩ <;> rw [CORS_headers_eq] <;> rfl

/-! ## Helper lemmas: handler evaluation -/

/-- `handlerGetByID` with a non-empty id, evaluated per query outcome. -/
theorem handlerGetByID_eval (id : GoStr) (hid : (id == []) = false)
    (qo : Except SqlError model.Task) :
    handlerGetByID id qo =
      match qo with
      | .ok t => ⟨200, .task t.toResponse⟩
      | .error .errNoRows => ⟨404, .errorObj (gs "Task not found")⟩
      | .error (.other _) => ⟨500, .errorObj (gs "Failed to retrieve task")⟩ := by
  unfold handlerGetByID
  rw [hid]
  simp only [Bool.false_eq_true, if_false]
  rcases qo with e | t
  · rcases e with _ | m <;> rfl
  · rfl

/-- `handlerDelete` with a non-empty id, evaluated per DELETE outcome. -/
theorem handlerDelete_eval (id : GoStr) (hid : (id == []) = false)
    (eo : ExecOutcome) :
    handlerDelete id eo =
      match eo with
      | .ok 0 => ⟨404, .errorObj (gs "Task not found")⟩
      | .ok (_ + 1) => pkgNoContent
      | .execErr _ => ⟨500, .errorObj (gs "Failed to delete task")⟩
      | .rowsAffectedErr _ => ⟨500, .errorObj (gs "Failed to delete task")⟩ := by
  unfold handlerDelete
  rw [hid]
  simp only [Bool.false_eq_true, if_false]
  rcases eo with n | m | m
  · cases n <;> rfl
  · rfl
  · rfl

/-- `handlerUpdate` with a non-empty id and a valid request, evaluated
per fetch and write outcome. -/
theorem handlerUpdate_eval (id : GoStr) (hid : (id == []) = false)
    (ureq : model.UpdateTaskRequest)
    (hreq : validateUpdateTaskRequest ureq = [])
    (fetch : Except SqlError model.Task) (now : Time)
    (write : model.Task → Except SqlError model.Task) :
    handlerUpdate id ureq fetch now write =
      match fetch with
      | .error .errNoRows => ⟨404, .errorObj (gs "Task not found")⟩
      | .error (.other _) => ⟨500, .errorObj (gs "Failed to update task")⟩
      | .ok t =>
        match write (writtenRow t ureq now) with
        | .ok u => ⟨200, .task u.toResponse⟩
        | .error _ => ⟨500, .errorObj (gs "Failed to update task")⟩ := by
  unfold handlerUpdate
  rw [hid]
  simp only [Bool.false_eq_true, if_false]
  unfold svcUpdate repoUpdateRun
  rw [hreq]
  rcases fetch with e | t
  · rcases e with _ | m <;> rfl
  · rcases hw : write (writtenRow t ureq now) with e | u
    · rcases e with _ | m <;>
        simp [hw, repoClassifyGet, pkgJSONSuccess, pkgInternalError, pkgNotFound,
          pkgWriteJSON]
    · simp [hw, repoClassifyGet, pkgJSONSuccess, pkgInternalError, pkgNotFound,
        pkgWriteJSON]

/-! ## Claim theorems: task service -/

/-- Claim C3: updating an existing task merges the request into the
fetched row — non-null request fields overwrite, null fields keep the
stored value — stamps updated-at with the current time, and the complete
merged row (id and created-at preserved) is what is written to and kept
in the store. -/
theorem claim_c3_partial_update (store : Store) (now : Time) (id : GoStr)
    (updates : model.UpdateTaskRequest) (t : model.Task)
    (h : dbQueryTask store id = .ok t) :
    ∃ row : model.Task,
      row = { id := t.id
              title := match updates.title with
                       | some v => v
                       | none => t.title
              description := match updates.description with
                             | some v => v
                             | none => t.description
              status := match updates.status with
                        | some v => v
                        | none => t.status
              createdAt := t.createdAt
              updatedAt := now } ∧
      repoUpdateStore store now id updates =
        .ok (row, store.map (fun u => if u.id == id then row else u)) := by
  refine ⟨writtenRow t updates now, ?_, ?_⟩
  · rfl
  · unfold repoUpdateStore
    rw [h]
    rfl

/-- Witness for C3: a stored task updated with title and status set and
description null keeps its description and created-at, takes the new
title and status, and gets updated-at 7. -/
theorem claim_c3_partial_update_witness :
    repoUpdateStore [⟨gs "1", gs "Old", gs "OldDesc", gs "pending", 3, 3⟩] 7
        (gs "1") ⟨some (gs "New"), none, some (gs "completed")⟩ =
      .ok (⟨gs "1", gs "New", gs "OldDesc", gs "completed", 3, 7⟩,
           [⟨gs "1", gs "New", gs "OldDesc", gs "completed", 3, 7⟩]) := by
  obtain ⟨row, hrow, heq⟩ := claim_c3_partial_update
      [⟨gs "1", gs "Old", gs "OldDesc", gs "pending", 3, 3⟩] 7 (gs "1")
      ⟨some (gs "New"), none, some (gs "completed")⟩
      ⟨gs "1", gs "Old", gs "OldDesc", gs "pending", 3, 3⟩ (by rfl)
  rw [hrow] at heq
  exact heq

/-- Claim C4: across GetByID, Update and Delete the storage-level
"no row" condition (no matching row on read, zero rows affected on
delete) is the only condition mapped to 404 with body
error "Task not found"; every other storage failure maps to 500 with the
handler's generic message. -/
theorem claim_c4_error_classification (id : GoStr) (h : id ≠ [])
    (qo : Except SqlError model.Task) (eo : ExecOutcome)
    (ureq : model.UpdateTaskRequest)
    (hreq : validateUpdateTaskRequest ureq = [])
    (fetch : Except SqlError model.Task) (now : Time)
    (write : model.Task → Except SqlError model.Task) :
    (handlerGetByID id qo = ⟨404, .errorObj (gs "Task not found")⟩ ↔
      qo = .error .errNoRows) ∧
    (∀ m, handlerGetByID id (.error (.other m)) =
      ⟨500, .errorObj (gs "Failed to retrieve task")⟩) ∧
    (handlerDelete id eo = ⟨404, .errorObj (gs "Task not found")⟩ ↔
      eo = .ok 0) ∧
    (∀ m, handlerDelete id (.execErr m) =
      ⟨500, .errorObj (gs "Failed to delete task")⟩) ∧
    (∀ m, handlerDelete id (.rowsAffectedErr m) =
      ⟨500, .errorObj (gs "Failed to delete task")⟩) ∧
    (handlerUpdate id ureq fetch now write =
        ⟨404, .errorObj (gs "Task not found")⟩ ↔
      fetch = .error .errNoRows) ∧
    (∀ m, handlerUpdate id ureq (.error (.other m)) now write =
      ⟨500, .errorObj (gs "Failed to update task")⟩) ∧
    (∀ (t : model.Task) (e : SqlError),
      handlerUpdate id ureq (.ok t) now (fun _ => .error e) =
        ⟨500, .errorObj (gs "Failed to update task")⟩) := by
  have hid : (id == []) = false := beq_eq_false_iff_ne.mpr h
  refine ⟨?_, ?_, ?_, ?_, ?_, ?_, ?_, ?_⟩
  · rw [handlerGetByID_eval id hid qo]
    rcases qo with e | t
    · rcases e with _ | m <;> simp
    · simp [pkgJSONSuccess, pkgWriteJSON]
  · intro m
    rw [handlerGetByID_eval id hid]
  · rw [handlerDelete_eval id hid eo]
    rcases eo with n | m | m
    · cases n <;> simp [pkgNoContent]
    · simp
    · simp
  · intro m
    rw [handlerDelete_eval id hid]
  · intro m
    rw [handlerDelete_eval id hid]
  · rw [handlerUpdate_eval id hid ureq hreq fetch now write]
    rcases fetch with e | t
    · rcases e with _ | m <;> simp
    · rcases hw : write (writtenRow t ureq now) with e | u <;>
        simp [hw, pkgJSONSuccess, pkgWriteJSON]
  · intro m
    rw [handlerUpdate_eval id hid ureq hreq _ now write]
  · intro t e
    rw [handlerUpdate_eval id hid ureq hreq _ now (fun _ => .error e)]

/-- Witness for C4 at DELETE /tasks/42 with zero rows affected:
404 with body error "Task not found". -/
theorem claim_c4_error_classification_witness :
    handlerDelete (gs "42") (.ok 0) = ⟨404, .errorObj (gs "Task not found")⟩ := by
  have h := claim_c4_error_classification (gs "42") (by decide)
      (.error .errNoRows) (.ok 0) ⟨none, none, none⟩ (by rfl)
      (.error .errNoRows) 0 (fun _ => .error .errNoRows)
  exact h.2.2.1.mpr rfl

/-- Claim C5: a create request that fails validation yields the
Validation domain error carrying the first rendered violation, and the
store is returned untouched — no storage call happens on that path. -/
theorem claim_c5_validation_no_side_effect (genId : GoStr) (now : Time)
    (req : model.CreateTaskRequest) (store : Store)
    (e : FieldError) (es : List FieldError)
    (h : validateCreateTaskRequest req = e :: es) :
    svcCreate genId now req store =
      (.error (.validation (renderFieldError e)), store) := by
  unfold svcCreate
  rw [h]
  rfl

/-- Witness for C5 at the empty-title create request: a Validation
failure with message "Title is required", store unchanged. -/
theorem claim_c5_validation_no_side_effect_witness :
    svcCreate (gs "id-1") 5 ⟨[], []⟩ [] =
      (.error (.validation (gs "Title is required")), []) := by
  have hr : renderFieldError ⟨gs "Title", gs "required", []⟩ =
      gs "Title is required" := by decide
  have h := claim_c5_validation_no_side_effect (gs "id-1") 5 ⟨[], []⟩ []
      ⟨gs "Title", gs "required", []⟩ [] (by rfl)
  rw [hr] at h
  exact h

/-- Every rendered violation has the shape `<Field> <reason>` with one of
the five reasons of §4.1. -/
theorem renderFieldError_shape (e : FieldError) :
    ∃ reason, renderFieldError e = e.field ++ gs " " ++ reason ∧
      reasonShapes reason e.param := by
  unfold renderFieldError reasonShapes
  split_ifs with h1 h2 h3 h4
  · exact ⟨gs "is required",
      by simp only [List.append_assoc]; try rfl, Or.inl rfl⟩
  · exact ⟨gs "must be at least " ++ e.param ++ gs " characters",
      by simp only [List.append_assoc]; try rfl, Or.inr (Or.inl rfl)⟩
  · exact ⟨gs "must be at most " ++ e.param ++ gs " characters",
      by simp only [List.append_assoc]; try rfl, Or.inr (Or.inr (Or.inl rfl))⟩
  · exact ⟨gs "must be one of: " ++ e.param,
      by simp only [List.append_assoc]; try rfl,
      Or.inr (Or.inr (Or.inr (Or.inl rfl)))⟩
  · exact ⟨gs "is invalid",
      by simp only [List.append_assoc]; try rfl,
      Or.inr (Or.inr (Or.inr (Or.inr rfl)))⟩

/-- Claim C6: a failing request (create or update) is reported with
exactly one violation — the first in declared field order — rendered as
`<Field> <reason>` with one of the five reasons; later violations in the
list are never part of the message. -/
theorem claim_c6_first_failure (creq : model.CreateTaskRequest)
    (ureq : model.UpdateTaskRequest) (ea eb : FieldError)
    (esa esb : List FieldError)
    (ha : validateCreateTaskRequest creq = ea :: esa)
    (hb : validateUpdateTaskRequest ureq = eb :: esb)
    (genId : GoStr) (now : Time) (store : Store)
    (repoResult : Except RepoError model.Task) :
    svcCreate genId now creq store =
      (.error (.validation (renderFieldError ea)), store) ∧
    svcUpdate ureq repoResult = .error (.validation (renderFieldError eb)) ∧
    (∃ reason, renderFieldError ea = ea.field ++ gs " " ++ reason ∧
      reasonShapes reason ea.param) ∧
    (∃ reason, renderFieldError eb = eb.field ++ gs " " ++ reason ∧
      reasonShapes reason eb.param) := by
  refine ⟨?_, ?_, renderFieldError_shape ea, renderFieldError_shape eb⟩
  · unfold svcCreate
    rw [ha]
    rfl
  · unfold svcUpdate
    rw [hb]
    rfl

/-- Witness for C6: empty-title create reports only "Title is required";
an update with an invalid status reports
"Status must be one of: pending in_progress completed". -/
theorem claim_c6_first_failure_witness :
    svcCreate (gs "id-1") 0 ⟨[], []⟩ [] =
      (.error (.validation (gs "Title is required")), []) ∧
    svcUpdate ⟨none, none, some (gs "bad")⟩ (.error .errTaskNotFound) =
      .error (.validation
        (gs "Status must be one of: pending in_progress completed")) := by
  have h := claim_c6_first_failure ⟨[], []⟩ ⟨none, none, some (gs "bad")⟩
      ⟨gs "Title", gs "required", []⟩
      ⟨gs "Status", gs "oneof", gs "pending in_progress completed"⟩
      [] [] (by rfl) (by rfl) (gs "id-1") 0 [] (.error .errTaskNotFound)
  have hra : renderFieldError ⟨gs "Title", gs "required", []⟩ =
      gs "Title is required" := by decide
  have hrb : renderFieldError
      ⟨gs "Status", gs "oneof", gs "pending in_progress completed"⟩ =
      gs "Status must be one of: pending in_progress completed" := by decide
  obtain ⟨h1, h2, -, -⟩ := h
  rw [hra] at h1
  rw [hrb] at h2
  exact ⟨h1, h2⟩

/-- Claim C7: a valid create request yields a 201 response carrying the
created entity: the server-generated id, the request's title and
description, status forced to pending whatever the request contained,
and created-at equal to updated-at; the same row is appended to the
store. -/
theorem claim_c7_create_success (genId : GoStr) (now : Time)
    (req : model.CreateTaskRequest) (store : Store)
    (h : validateCreateTaskRequest req = []) :
    handlerCreate genId now req store =
      (⟨201, .task ⟨genId, req.title, req.description, gs "pending", now, now⟩⟩,
       store ++ [⟨genId, req.title, req.description, gs "pending", now, now⟩]) := by
  unfold handlerCreate svcCreate
  rw [h]
  rfl

/-- Witness for C7 at POST /tasks with title "Buy milk": 201, status
pending, the generated id, and equal timestamps. -/
theorem claim_c7_create_success_witness :
    handlerCreate (gs "id-9") 9 ⟨gs "Buy milk", []⟩ [] =
      (⟨201, .task ⟨gs "id-9", gs "Buy milk", [], gs "pending", 9, 9⟩⟩,
       [⟨gs "id-9", gs "Buy milk", [], gs "pending", 9, 9⟩]) := by
  exact claim_c7_create_success (gs "id-9") 9 ⟨gs "Buy milk", []⟩ [] (by rfl)

/-- Claim C8 (code bug): with the database unhealthy the health endpoint
does respond 503, but its body is the bare JSON string
"Service unhealthy", not the aggregate health payload the spec
describes — the handler builds the aggregate payload, marks it
unhealthy, then discards it and writes the plain string. -/
theorem claim_c8_health_unhealthy_body :
    healthCheckHandler (some (gs "connection refused")) ⟨0, 0, 0, 0, 0, []⟩ =
      ⟨503, .jsonString (gs "Service unhealthy")⟩ ∧
    isHealthPayload ((healthCheckHandler (some (gs "connection refused"))
        ⟨0, 0, 0, 0, 0, []⟩).body) = false := by
  exact ⟨rfl, rfl⟩
